import Mathlib

/-!
Shallow embedding of the surf-scheduler MCP server (src/mcp-server/server.py)
and verification of its specification claims.

The server exposes five tools. Three forecast tools issue one HTTP GET to an
upstream provider, call response.raise_for_status(), decode the body as JSON,
check that the top-level value contains the key "latitude" (Python membership
test), and return either the body or an error dict. Two reference tools read
the literal contents of a local JSON file.

Modelling decisions, each tied to the source:
* JSON values are the inductive `Json`; numbers are exact rationals (the
  claims under study never depend on binary floating-point rounding).
* The result of the Python coercions float(lat), float(lng) is passed in as
  an `Option (Rat × Rat)` parameter: `none` means float() raised ValueError
  on one of the two strings, `some (la, lo)` means both coerced, to la and lo.
  This abstracts the Python float-literal grammar, not the control flow.
* The upstream provider is a function from the issued request to one of:
  a 2xx response with decoded JSON body (`success`), an httpx.HTTPError
  (network failure, or the HTTPStatusError from raise_for_status on a
  non-2xx status; `httpError` carries the exception text), or a 2xx body
  that is not JSON, where response.json() raises a ValueError (`notJson`).
* Each tool returns the list of requests it issued together with its
  outcome: a normal return value (`CallOutcome.result`) or an uncaught
  exception propagating out of the function (`CallOutcome.exn`).
-/

/-- A JSON value as decoded by response.json(). Numbers are modelled as
exact rationals. -/
inductive Json where
  | null
  | bool (b : Bool)
  | num (q : ℚ)
  | str (s : String)
  | arr (elems : List Json)
  | obj (fields : List (String × Json))

/-- A query-parameter value in the params dict handed to httpx.get:
either a Python float (modelled as an exact rational) or a string. -/
inductive PVal where
  | num (q : ℚ)
  | str (s : String)
deriving DecidableEq

/-- One outbound HTTP GET request: target URL and the params dict, in the
order the source constructs it. -/
structure Request where
  url : String
  params : List (String × PVal)
deriving DecidableEq

/-- What the upstream provider does for a given request. -/
inductive UpstreamOutcome where
  | success (body : Json)
  | httpError (msg : String)
  | notJson

/-- A value returned normally by a tool: either a (claimed-valid) upstream
payload or the uniform error dict, whose shape is exactly one key "error"
mapped to a string. -/
inductive ToolResult where
  | payload (body : Json)
  | toolError (msg : String)

/-- How a tool invocation ends: a normal return, or an exception escaping
the tool function (name of the Python exception type). -/
inductive CallOutcome where
  | result (r : ToolResult)
  | exn (name : String)

/-- needle occurs as a contiguous substring of hay. -/
def isSubstring (needle hay : String) : Bool :=
  (List.range (hay.length + 1)).any fun i =>
    needle.toList.isPrefixOf (hay.toList.drop i)

/-- Python membership test key in data, for data decoded from JSON:
on a dict it tests key presence, on a list it tests equality with an
element, on a string it tests substring containment; on int, float, bool
or None it raises TypeError, modelled as `none`. -/
def pyContains (key : String) : Json → Option Bool
  | .obj kvs => some (kvs.any fun kv => kv.1 == key)
  | .arr xs => some (xs.any fun x =>
      match x with
      | .str s => s == key
      | _ => false)
  | .str s => some (isSubstring key s)
  | _ => none

/-- The validation step shared by the three forecast tools: the block
from the membership test to the return of data or of the error dict
(server.py lines 79-84, 133-138, 168-173). -/
def validateResponse (data : Json) : CallOutcome :=
  match pyContains "latitude" data with
  | some true => .result (.payload data)
  | some false => .result (.toolError "Invalid API response format.")
  | none => .exn "TypeError"

/-- The try/except body shared by the three forecast tools, after the
request object is built: issue the single GET, then validate; the two
except clauses turn httpx.HTTPError and ValueError into error dicts.
Returns the issued requests together with the outcome. -/
def forecastRequestFlow (req : Request) (env : Request → UpstreamOutcome) :
    List Request × CallOutcome :=
  match env req with
  | .success data => ([req], validateResponse data)
  | .httpError e => ([req], .result (.toolError ("API request failed: " ++ e)))
  | .notJson => ([req], .result (.toolError "Invalid JSON response from API."))

/-- The daily metric list of get_wave_forecast_week, in source order. -/
def waveDailyMetrics : List String :=
  ["wave_height_max", "wave_direction_dominant", "wave_period_max"]

/-- The daily metric list of get_wind_forecast_week, in source order. -/
def windDailyMetrics : List String :=
  ["wind_speed_10m_max", "wind_gusts_10m_max", "wind_direction_10m_dominant"]

/-- The request built by get_wave_forecast_week from the coerced
coordinates: marine endpoint, latitude and longitude passed through, and
the comma-joined daily metric list. -/
def waveRequest (la lo : ℚ) : Request :=
  { url := "https://marine-api.open-meteo.com/v1/marine"
    params := [("latitude", .num la), ("longitude", .num lo),
               ("daily", .str (String.intercalate "," waveDailyMetrics))] }

/-- The request built by get_wind_forecast_week from the coerced
coordinates: forecast endpoint, latitude and longitude passed through, and
the comma-joined daily metric list. -/
def windRequest (la lo : ℚ) : Request :=
  { url := "https://api.open-meteo.com/v1/forecast"
    params := [("latitude", .num la), ("longitude", .num lo),
               ("daily", .str (String.intercalate "," windDailyMetrics))] }

/-- The fixed request built by get_daily_tide_forecast: marine endpoint,
hard-coded Lisbon coordinates, hourly sea-level series. -/
def tideRequest : Request :=
  { url := "https://marine-api.open-meteo.com/v1/marine"
    params := [("latitude", .num (386756/10000)), ("longitude", .num (-93378/10000)),
               ("hourly", .str "sea_level_height_msl")] }

/-- get_wave_forecast_week (server.py lines 45-90). `coerced` is the result
of float(lat), float(lng): when `none`, the ValueError raised by float() is
caught by the except ValueError clause before httpx.get runs, so no request
is issued and the JSON-error dict is returned. -/
def get_wave_forecast_week (coerced : Option (ℚ × ℚ))
    (env : Request → UpstreamOutcome) : List Request × CallOutcome :=
  match coerced with
  | some (la, lo) => forecastRequestFlow (waveRequest la lo) env
  | none => ([], .result (.toolError "Invalid JSON response from API."))

/-- get_wind_forecast_week (server.py lines 93-144), same structure as the
wave tool with the forecast endpoint and wind metric list. -/
def get_wind_forecast_week (coerced : Option (ℚ × ℚ))
    (env : Request → UpstreamOutcome) : List Request × CallOutcome :=
  match coerced with
  | some (la, lo) => forecastRequestFlow (windRequest la lo) env
  | none => ([], .result (.toolError "Invalid JSON response from API."))

/-- get_daily_tide_forecast (server.py lines 147-179): no caller arguments;
always issues the fixed Lisbon request. -/
def get_daily_tide_forecast (env : Request → UpstreamOutcome) :
    List Request × CallOutcome :=
  forecastRequestFlow tideRequest env

/-- The backing file name of get_surf_spots_coordinates. -/
def surfSpotsFileName : String := "surf-spots.json"

/-- The backing file name of get_surf_preferences. -/
def surfPreferencesFileName : String := "surf-preferences.json"

/-- get_surf_spots_coordinates (server.py lines 17-28): open the local file
and return f.read() verbatim. The filesystem at call time is a map from
file name to readable contents; `none` covers a missing or unreadable file,
where open()/read() raises OSError and the tool has no handler. Taking the
filesystem as a per-call argument models the re-read on every invocation. -/
def get_surf_spots_coordinates (fs : String → Option String) :
    Except String String :=
  match fs surfSpotsFileName with
  | some content => .ok content
  | none => .error "OSError"

/-- get_surf_preferences (server.py lines 31-42): same shape as
get_surf_spots_coordinates with its own backing file. -/
def get_surf_preferences (fs : String → Option String) :
    Except String String :=
  match fs surfPreferencesFileName with
  | some content => .ok content
  | none => .error "OSError"

/-- Modelled from the spec: the provider-specific constants of the
next-week window rule of the other server variant, which is absent from
src/ (spec section 4.2: anchor weekday Monday, provider-specific start and
end hours, a fixed day count, and the offset of the caller-local time zone
from UTC in seconds). -/
structure WindowConfig where
  anchorHour : ℤ
  closeHour : ℤ
  days : ℤ
  tzOffsetSeconds : ℤ

/-- Modelled from the spec: given a local instant lt (seconds since epoch,
local clock), the earliest instant at or after lt that falls on a Monday at
anchorHour with minutes and seconds zero. Day index 0 (1970-01-01) was a
Thursday, so a day index d is a Monday exactly when (d + 3) % 7 = 0. -/
def mondayAnchorLocal (anchorHour lt : ℤ) : ℤ :=
  let d := lt / 86400
  let wd := (d + 3) % 7
  let c := (d + (7 - wd) % 7) * 86400 + anchorHour * 3600
  if lt ≤ c then c else c + 604800

/-- Modelled from the spec: the request window of a time-range-based
adapter. Start is the next Monday at anchorHour in the caller-local zone;
end is start plus the fixed day count, at closeHour local; both are
converted back to UTC seconds before transmission. -/
def weekWindow (cfg : WindowConfig) (nowUtc : ℤ) : ℤ × ℤ :=
  let lt := nowUtc + cfg.tzOffsetSeconds
  let sL := mondayAnchorLocal cfg.anchorHour lt
  let eL := sL + cfg.days * 86400 + (cfg.closeHour - cfg.anchorHour) * 3600
  (sL - cfg.tzOffsetSeconds, eL - cfg.tzOffsetSeconds)

/-- A local instant t is a Monday-at-anchorHour instant: its day index is a
Monday and its time of day is exactly anchorHour. -/
def isMondayAt (anchorHour t : ℤ) : Prop :=
  (t / 86400 + 3) % 7 = 0 ∧ t % 86400 = anchorHour * 3600

/-- Concrete tide body for C10: has the marker but no hourly series. -/
def tideBodyNoHourly : Json := Json.obj [("latitude", Json.num (386756/10000))]

/-- Concrete wave body for C10: has the marker but no daily arrays. -/
def waveBodyNoDaily : Json := Json.obj [("latitude", Json.num (3868/100))]

/-- Concrete valid wave body, the stub of the end-to-end scenario of the
spec: a latitude echo plus daily arrays. -/
def validBodyExample : Json :=
  Json.obj [("latitude", Json.num (3868/100)),
            ("daily", Json.obj [("time", Json.arr [Json.str "2025-01-06"]),
                                ("wave_height_max", Json.arr [Json.num (12/10)])])]

/-- The request list of forecastRequestFlow is the singleton of the built
request, whatever the upstream does: one outbound call, no retry. -/
theorem forecastRequestFlow_fst (req : Request) (env : Request → UpstreamOutcome) :
    (forecastRequestFlow req env).1 = [req] := by
  cases h : env req <;> simp [forecastRequestFlow, h]

/-- C2 amended: on a 2xx JSON body for which the Python membership test finds no
top-level "latitude", each of the three forecast tools returns the error
dict with message "Invalid API response format." and does not return the
raw body. -/
theorem forecast_tools_reject_missing_marker (body : Json)
    (h : pyContains "latitude" body = some false) (la lo : ℚ) :
    (get_wave_forecast_week (some (la, lo)) (fun _ => .success body)).2
        = .result (.toolError "Invalid API response format.") ∧
    (get_wind_forecast_week (some (la, lo)) (fun _ => .success body)).2
        = .result (.toolError "Invalid API response format.") ∧
    (get_daily_tide_forecast (fun _ => .success body)).2
        = .result (.toolError "Invalid API response format.") ∧
    (get_wave_forecast_week (some (la, lo)) (fun _ => .success body)).2
        ≠ .result (.payload body) ∧
    (get_wind_forecast_week (some (la, lo)) (fun _ => .success body)).2
        ≠ .result (.payload body) ∧
    (get_daily_tide_forecast (fun _ => .success body)).2
        ≠ .result (.payload body) := by
  simp [get_wave_forecast_week, get_wind_forecast_week, get_daily_tide_forecast,
        forecastRequestFlow, validateResponse, h]

/-- C2 witness: the spec's stub body with only an unexpected key, at the
Carcavelos coordinates. -/
theorem forecast_tools_reject_missing_marker_witness :
    pyContains "latitude" (Json.obj [("unexpected", Json.bool true)]) = some false ∧
    (get_wave_forecast_week (some (386756/10000, -93378/10000))
        (fun _ => .success (Json.obj [("unexpected", Json.bool true)]))).2
      = .result (.toolError "Invalid API response format.") :=
  ⟨by decide,
   (forecast_tools_reject_missing_marker _ (by decide) (386756/10000) (-93378/10000)).1⟩

/-- C3: on a 2xx JSON body for which the membership test does find
"latitude", each forecast tool returns that very body, unchanged, and the
validation step maps the body to itself, so re-validating the returned
payload yields the same payload. -/
theorem forecast_tools_pass_valid_body_unchanged (body : Json)
    (h : pyContains "latitude" body = some true) (la lo : ℚ) :
    (get_wave_forecast_week (some (la, lo)) (fun _ => .success body)).2
        = .result (.payload body) ∧
    (get_wind_forecast_week (some (la, lo)) (fun _ => .success body)).2
        = .result (.payload body) ∧
    (get_daily_tide_forecast (fun _ => .success body)).2
        = .result (.payload body) ∧
    validateResponse body = .result (.payload body) := by
  simp [get_wave_forecast_week, get_wind_forecast_week, get_daily_tide_forecast,
        forecastRequestFlow, validateResponse, h]

/-- C3 witness: the spec's end-to-end valid stub body at the Carcavelos
coordinates comes back unchanged. -/
theorem forecast_tools_pass_valid_body_unchanged_witness :
    pyContains "latitude" validBodyExample = some true ∧
    (get_wave_forecast_week (some (386756/10000, -93378/10000))
        (fun _ => .success validBodyExample)).2
      = .result (.payload validBodyExample) :=
  ⟨by decide,
   (forecast_tools_pass_valid_body_unchanged _ (by decide) (386756/10000) (-93378/10000)).1⟩

/-- C4: with coerced coordinates la, lo, the wave and wind tools each issue
exactly one request, whatever the upstream does, and that request carries
the values unmodified under "latitude" and "longitude" together with the
provider's fixed comma-joined daily metric list. -/
theorem forecast_tools_single_request_passthrough (la lo : ℚ)
    (env : Request → UpstreamOutcome) :
    (get_wave_forecast_week (some (la, lo)) env).1 = [waveRequest la lo] ∧
    (get_wind_forecast_week (some (la, lo)) env).1 = [windRequest la lo] ∧
    waveRequest la lo =
      { url := "https://marine-api.open-meteo.com/v1/marine"
        params := [("latitude", .num la), ("longitude", .num lo),
          ("daily", .str "wave_height_max,wave_direction_dominant,wave_period_max")] } ∧
    windRequest la lo =
      { url := "https://api.open-meteo.com/v1/forecast"
        params := [("latitude", .num la), ("longitude", .num lo),
          ("daily", .str "wind_speed_10m_max,wind_gusts_10m_max,wind_direction_10m_dominant")] } :=
  ⟨forecastRequestFlow_fst _ _, forecastRequestFlow_fst _ _, rfl, rfl⟩

/-- C4 witness: at the Carcavelos coordinates, against an upstream that
fails on the network, the wave tool still issues exactly its one request. -/
theorem forecast_tools_single_request_passthrough_witness :
    (get_wave_forecast_week (some (386756/10000, -93378/10000))
        (fun _ => .httpError "boom")).1
      = [waveRequest (386756/10000) (-93378/10000)] :=
  (forecast_tools_single_request_passthrough (386756/10000) (-93378/10000)
    (fun _ => .httpError "boom")).1

/-- C5: when float coercion of a coordinate fails, the wave and wind tools
return the error dict raised through the except ValueError clause, as a
normal value rather than an exception, and issue no upstream request. -/
theorem forecast_tools_bad_coordinates_no_request (env : Request → UpstreamOutcome) :
    get_wave_forecast_week none env
        = ([], .result (.toolError "Invalid JSON response from API.")) ∧
    get_wind_forecast_week none env
        = ([], .result (.toolError "Invalid JSON response from API.")) :=
  ⟨rfl, rfl⟩

/-- C6: the tide tool takes no caller input beyond the upstream itself and
always issues exactly the one fixed request: Lisbon coordinates 38.6756,
-9.3378 and the hourly sea_level_height_msl series. -/
theorem tide_tool_fixed_request (env : Request → UpstreamOutcome) :
    (get_daily_tide_forecast env).1 = [tideRequest] ∧
    tideRequest =
      { url := "https://marine-api.open-meteo.com/v1/marine"
        params := [("latitude", .num (386756/10000)), ("longitude", .num (-93378/10000)),
                   ("hourly", .str "sea_level_height_msl")] } :=
  ⟨forecastRequestFlow_fst _ _, rfl⟩

/-- C7: on an httpx.HTTPError (network failure, or the raise_for_status
exception on a non-2xx status) each forecast tool returns, after its single
request, one error dict embedding the original provider error text; on a
2xx body that is not JSON it returns the JSON-error dict. -/
theorem forecast_tools_transport_failure_single_toolerror (e : String) (la lo : ℚ) :
    get_wave_forecast_week (some (la, lo)) (fun _ => .httpError e)
        = ([waveRequest la lo], .result (.toolError ("API request failed: " ++ e))) ∧
    get_wind_forecast_week (some (la, lo)) (fun _ => .httpError e)
        = ([windRequest la lo], .result (.toolError ("API request failed: " ++ e))) ∧
    get_daily_tide_forecast (fun _ => .httpError e)
        = ([tideRequest], .result (.toolError ("API request failed: " ++ e))) ∧
    get_wave_forecast_week (some (la, lo)) (fun _ => .notJson)
        = ([waveRequest la lo], .result (.toolError "Invalid JSON response from API.")) ∧
    get_wind_forecast_week (some (la, lo)) (fun _ => .notJson)
        = ([windRequest la lo], .result (.toolError "Invalid JSON response from API.")) ∧
    get_daily_tide_forecast (fun _ => .notJson)
        = ([tideRequest], .result (.toolError "Invalid JSON response from API.")) :=
  ⟨rfl, rfl, rfl, rfl, rfl, rfl⟩

/-- C9: each reference tool returns the literal contents its backing file
holds at the moment of the call, and fails exactly when that file is
missing or unreadable; because the filesystem is consulted afresh on every
invocation, an edit to the file is reflected by the next call. -/
theorem reference_tools_return_literal_file_contents :
    (∀ (fs : String → Option String) (c : String),
        fs surfSpotsFileName = some c → get_surf_spots_coordinates fs = .ok c) ∧
    (∀ (fs : String → Option String) (c : String),
        fs surfPreferencesFileName = some c → get_surf_preferences fs = .ok c) ∧
    (∀ fs : String → Option String,
        fs surfSpotsFileName = none → get_surf_spots_coordinates fs = .error "OSError") ∧
    (∀ fs : String → Option String,
        fs surfPreferencesFileName = none → get_surf_preferences fs = .error "OSError") := by
  refine ⟨fun fs c h => ?_, fun fs c h => ?_, fun fs h => ?_, fun fs h => ?_⟩ <;>
    simp [get_surf_spots_coordinates, get_surf_preferences, h]

/-- C9 witness: a filesystem holding literal text for every file name. -/
theorem reference_tools_return_literal_file_contents_witness :
    get_surf_spots_coordinates (fun _ => some "spots-text") = .ok "spots-text" ∧
    get_surf_preferences (fun _ => some "prefs-text") = .ok "prefs-text" :=
  ⟨reference_tools_return_literal_file_contents.1 _ "spots-text" rfl,
   reference_tools_return_literal_file_contents.2.1 _ "prefs-text" rfl⟩

/-- C10: the validation step accepts a body exactly when the membership
test finds the top-level key "latitude"; in particular a tide body with no
hourly series and a wave body with no daily arrays are both returned to
the caller as successful payloads. -/
theorem marker_check_only_latitude :
    (∀ body : Json,
        validateResponse body = .result (.payload body)
          ↔ pyContains "latitude" body = some true) ∧
    pyContains "hourly" tideBodyNoHourly = some false ∧
    (get_daily_tide_forecast (fun _ => .success tideBodyNoHourly)).2
        = .result (.payload tideBodyNoHourly) ∧
    pyContains "daily" waveBodyNoDaily = some false ∧
    (get_wave_forecast_week (some (386756/10000, -93378/10000))
        (fun _ => .success waveBodyNoDaily)).2
      = .result (.payload waveBodyNoDaily) := by
  refine ⟨fun body => ?_, by decide, rfl, by decide, rfl⟩
  constructor
  · intro h
    rcases hc : pyContains "latitude" body with _ | b
    · rw [validateResponse, hc] at h
      exact absurd h (by simp)
    · cases b
      · rw [validateResponse, hc] at h
        exact absurd h (by simp)
      · rfl
  · intro h
    simp [validateResponse, h]

/-- When the environment only ever produces JSON bodies on which the
membership test is defined, the shared request flow returns a normal
ToolResult: no exception escapes. -/
theorem forecastRequestFlow_result (req : Request) (env : Request → UpstreamOutcome)
    (h : ∀ body : Json, env req = .success body → (pyContains "latitude" body).isSome) :
    ∃ r : ToolResult, (forecastRequestFlow req env).2 = .result r := by
  cases he : env req with
  | success body =>
      have hs := h body he
      rcases hc : pyContains "latitude" body with _ | b
      · rw [hc] at hs
        exact absurd hs (by simp)
      · cases b
        · exact ⟨.toolError "Invalid API response format.",
            by simp [forecastRequestFlow, he, validateResponse, hc]⟩
        · exact ⟨.payload body,
            by simp [forecastRequestFlow, he, validateResponse, hc]⟩
  | httpError e =>
      exact ⟨.toolError ("API request failed: " ++ e), by simp [forecastRequestFlow, he]⟩
  | notJson =>
      exact ⟨.toolError "Invalid JSON response from API.", by simp [forecastRequestFlow, he]⟩

/-- C1 counterexample: the membership test "latitude" in data raises an
uncaught TypeError when the decoded 2xx body is a JSON scalar; with the
body 0 the wave tool ends in a propagating exception, not a return value. -/
theorem tool_invocation_uncaught_typeerror :
    (get_wave_forecast_week (some (1, 1)) (fun _ => .success (Json.num 0))).2
      = .exn "TypeError" := rfl

/-- C1 amended: for every coercion outcome and every upstream outcome whose
successful decoded bodies support the Python membership test (dict, list or
string — equivalently, bodies on which pyContains is defined), each of the
three tools returns exactly one normal value, a payload or an error dict;
no exception propagates. On a 2xx scalar body (number, boolean or null)
the membership test instead raises an uncaught TypeError. -/
theorem tool_invocation_single_result (co : Option (ℚ × ℚ))
    (env : Request → UpstreamOutcome)
    (h : ∀ (req : Request) (body : Json),
        env req = .success body → (pyContains "latitude" body).isSome) :
    (∃ r : ToolResult, (get_wave_forecast_week co env).2 = .result r) ∧
    (∃ r : ToolResult, (get_wind_forecast_week co env).2 = .result r) ∧
    (∃ r : ToolResult, (get_daily_tide_forecast env).2 = .result r) := by
  refine ⟨?_, ?_, forecastRequestFlow_result _ _ (h tideRequest)⟩ <;>
    rcases co with _ | ⟨la, lo⟩
  · exact ⟨_, rfl⟩
  · exact forecastRequestFlow_result _ _ (h (waveRequest la lo))
  · exact ⟨_, rfl⟩
  · exact forecastRequestFlow_result _ _ (h (windRequest la lo))

/-- C1 witness: a dict body with the marker, at concrete coordinates. -/
theorem tool_invocation_single_result_witness :
    ∃ r : ToolResult,
      (get_wave_forecast_week (some (1, 1))
          (fun _ => .success (Json.obj [("latitude", Json.num 1)]))).2 = .result r :=
  (tool_invocation_single_result (some (1, 1)) _
    (fun req body hb => by cases hb; decide)).1

/-- C8: for every provider configuration with in-range hour constants and
every fixed current instant, the computed window starts at the next
occurrence (earliest instant not before now) of Monday at the anchor hour
in the caller-local zone, and ends exactly the fixed day count later at the
closing hour, both expressed in UTC seconds since epoch. -/
theorem week_window_next_monday (cfg : WindowConfig) (nowUtc : ℤ)
    (h1 : 0 ≤ cfg.anchorHour) (h2 : cfg.anchorHour < 24)
    (h3 : 0 ≤ cfg.closeHour) (h4 : cfg.closeHour < 24) :
    isMondayAt cfg.anchorHour ((weekWindow cfg nowUtc).1 + cfg.tzOffsetSeconds) ∧
    nowUtc ≤ (weekWindow cfg nowUtc).1 ∧
    (∀ t : ℤ, nowUtc ≤ t → isMondayAt cfg.anchorHour (t + cfg.tzOffsetSeconds) →
        (weekWindow cfg nowUtc).1 ≤ t) ∧
    (weekWindow cfg nowUtc).2 = (weekWindow cfg nowUtc).1
        + cfg.days * 86400 + (cfg.closeHour - cfg.anchorHour) * 3600 ∧
    ((weekWindow cfg nowUtc).2 + cfg.tzOffsetSeconds) % 86400 = cfg.closeHour * 3600 ∧
    ((weekWindow cfg nowUtc).2 + cfg.tzOffsetSeconds) / 86400
        = ((weekWindow cfg nowUtc).1 + cfg.tzOffsetSeconds) / 86400 + cfg.days := by
  obtain ⟨a, c, dy, off⟩ := cfg
  simp only [weekWindow, mondayAnchorLocal, isMondayAt] at *
  refine ⟨⟨?_, ?_⟩, ?_, ?_, ?_, ?_, ?_⟩
  · split <;> omega
  · split <;> omega
  · split <;> omega
  · intro t ht ⟨hm1, hm2⟩
    split <;> omega
  · split <;> omega
  · split <;> omega
  · split <;> omega

/-- C8 witness, at anchor hour 6, closing hour 18, 7 days, a UTC+1 caller
zone: a mid-week Thursday instant maps to the following Monday 06:00 local
(1760331600 UTC); an exact Monday-anchor instant maps to itself by
minimality; a Sunday-night instant maps to the next morning's anchor. -/
theorem week_window_next_monday_witness :
    (weekWindow ⟨6, 18, 7, 3600⟩ 1760000000).1 = 1760331600 ∧
    1760000000 ≤ (weekWindow ⟨6, 18, 7, 3600⟩ 1760000000).1 ∧
    (weekWindow ⟨6, 18, 7, 3600⟩ 1760331600).1 ≤ 1760331600 ∧
    (weekWindow ⟨6, 18, 7, 3600⟩ 1760309940).1 = 1760331600 :=
  ⟨by decide,
   (week_window_next_monday ⟨6, 18, 7, 3600⟩ 1760000000
      (by decide) (by decide) (by decide) (by decide)).2.1,
   (week_window_next_monday ⟨6, 18, 7, 3600⟩ 1760331600
      (by decide) (by decide) (by decide) (by decide)).2.2.1
     1760331600 le_rfl ⟨by decide, by decide⟩,
   by decide⟩

/-- C2 counterexample: the 2xx JSON body null lacks the marker field, yet
the tide tool does not return the format-error dict for it: the membership
test raises an uncaught TypeError that propagates instead. -/
theorem forecast_tools_reject_missing_marker_counterexample :
    pyContains "latitude" Json.null = none ∧
    (get_daily_tide_forecast (fun _ => .success Json.null)).2 = .exn "TypeError" ∧
    (get_daily_tide_forecast (fun _ => .success Json.null)).2
      ≠ .result (.toolError "Invalid API response format.") :=
  ⟨rfl, rfl,
   by simp [get_daily_tide_forecast, forecastRequestFlow, validateResponse, pyContains]⟩
